import Mathlib

/-!
Shallow embedding of the ollama-mcp-db question-answering orchestrator.

Two variants of the orchestrator exist in the repository and are both
embedded here:

* Protocol A (`src/index.ts`): the model answers in free text and the
  orchestrator extracts the first fenced ```sql block with a regex; the
  extracted SQL is executed and a second model call interprets the result.
* Protocol B (`unnamed/part_001`): the model must answer with a JSON object
  `\x7bsqlQuery, isVerified, answerSummary\x7d`; verified answers terminate the
  loop, unverified ones are executed and fed back.

External collaborators (the ollama chat endpoint and the MCP database
tool) are modelled as oracle functions indexed by call number; a call that
throws is an `Except.error` carrying the JavaScript error message.
`JSON.parse` plus the zod schema check of Protocol B are platform builtins
not present in the repository sources, so the decoded value (or the
stringified parse error) is supplied by the model oracle alongside the raw
response text.
-/

/-- One chat turn: `\x7b role: string; content: string \x7d` as used for
`chatHistory` entries and the per-attempt `messages` lists. -/
structure Turn where
  role : String
  content : String
deriving DecidableEq, Repr

abbrev History := List Turn

/-- Constant `private readonly MAX_HISTORY_LENGTH = 20` (same value in both variants). -/
def MAX_HISTORY_LENGTH : Nat := 20

/-- Constant `private readonly MAX_RETRIES = 5` (same value in both variants). -/
def MAX_RETRIES : Nat := 5

/-- The `while (this.chatHistory.length > this.MAX_HISTORY_LENGTH)
this.chatHistory.shift();` loop inside `addToHistory`: repeatedly drop the
front (oldest) entry while the length exceeds the bound. -/
def truncateHistory : History → History
  | [] => []
  | t :: rest =>
    if (t :: rest).length > MAX_HISTORY_LENGTH then truncateHistory rest
    else t :: rest

/-- Method `addToHistory(role, content)`: push the new turn, then shift oldest
entries while over the bound. -/
def addToHistory (hist : History) (role content : String) : History :=
  truncateHistory (hist ++ [⟨role, content⟩])

/-- Boolean prefix test on character lists (first argument is the pattern). -/
def startsWithChars : List Char → List Char → Bool
  | [], _ => true
  | _ :: _, [] => false
  | p :: ps, c :: cs => p == c && startsWithChars ps cs

/-- The literal opening delimiter of the regex `/```sql\n([\s\S]*?)\n```/`. -/
def fenceOpen : List Char := "```sql\n".data

/-- The literal closing delimiter `\n```` of the same regex. -/
def fenceClose : List Char := "\n```".data

/-- Scan for the first occurrence of the closing fence; returns the
characters before it (the lazy `([\s\S]*?)` capture), or `none` when no
closing fence occurs. -/
def findCloseFence : List Char → Option (List Char)
  | [] => none
  | c :: cs =>
    if startsWithChars fenceClose (c :: cs) then some []
    else
      match findCloseFence cs with
      | some body => some (c :: body)
      | none => none

/-- Leftmost-match search of `/```sql\n([\s\S]*?)\n```/`: at each position,
if the opening fence matches here and a closing fence occurs later, the
match succeeds with the shortest (lazy) capture; otherwise scanning resumes
at the next character. -/
def extractSqlAux : List Char → Option (List Char)
  | [] => none
  | c :: cs =>
    if startsWithChars fenceOpen (c :: cs) then
      match findCloseFence (List.drop fenceOpen.length (c :: cs)) with
      | some body => some body
      | none => extractSqlAux cs
    else extractSqlAux cs

/-- Embeds `response.message.content.match(/```sql\n([\s\S]*?)\n```/)`, returning
capture group 1 (`sqlMatch[1]`) when a match exists. -/
def extractSql (content : String) : Option String :=
  (extractSqlAux content.data).map String.mk

/-- Source `interface DatabaseSchema \x7b column_name: string; data_type: string \x7d`. -/
structure DatabaseSchema where
  column_name : String
  data_type : String
deriving DecidableEq, Repr

/-- The `foreignKey?: \x7btable, column\x7d` component of `ColumnMetadata`. -/
structure ForeignKeyRef where
  table : String
  column : String
deriving DecidableEq, Repr

/-- Source `interface ColumnMetadata \x7b description; examples; foreignKey? \x7d`. -/
structure ColumnMetadata where
  description : String
  examples : List String
  foreignKey : Option ForeignKeyRef
deriving DecidableEq, Repr

/-- The `Map<string, DatabaseSchema[]>` cache in cache-iteration (insertion) order. -/
abbrev SchemaCacheT := List (String × List DatabaseSchema)

/-- The `Map<string, Map<string, ColumnMetadata>>` metadata table. -/
abbrev ColumnMetaT := List (String × List (String × ColumnMetadata))

/-- Lookup `this.columnMetadata.get(tableName)?.get(column.column_name)`. -/
def lookupColumnMetadata (meta : ColumnMetaT) (tableName colName : String) :
    Option ColumnMetadata :=
  match meta.find? (fun p => p.1 == tableName) with
  | none => none
  | some (_, cols) =>
    match cols.find? (fun p => p.1 == colName) with
    | none => none
    | some (_, m) => some m

/-- Constant `private static readonly QUERY_GUIDELINES` of `src/index.ts`. -/
def QUERY_GUIDELINES : String :=
  "\nWhen analyzing questions:\n1. First write a SQL query to get the necessary information. Identify which tables contain the relevant information by looking at:\n   - Table names and their purposes\n   - Column names and descriptions\n   - Foreign key relationships\n2. Use the \x27query\x27 tool to execute the SQL query\n3. If unsure about table contents, write a sample query first:\n   SELECT column_name, COUNT(*) FROM table_name GROUP BY column_name LIMIT 5;\n4. For complex questions, break down into multiple queries:\n   - First query to validate data availability\n   - Second query to get detailed information\n5. Always include appropriate JOIN conditions when combining tables\n6. Use WHERE clauses to filter irrelevant data\n7. Consider using ORDER BY for sorted results\n\nImportant: Only use SELECT statements - no modifications allowed!\n\nWhen you are finished, analyze the results and provide a natural language response."

/-- Method `buildSystemPrompt(includeErrorContext = "")` of `src/index.ts`: role
preamble, per-table schema listing with optional column metadata and
foreign-key annotations, the query guidelines, and — when the error context
is non-empty (JavaScript string truthiness) — the previous-error directive. -/
def buildSystemPrompt (schemaCache : SchemaCacheT) (columnMetadata : ColumnMetaT)
    (includeErrorContext : String) : String :=
  let prompt :=
    "You are a data analyst assistant. You have access to a PostgreSQL database with these tables:\n\n"
  let prompt := schemaCache.foldl (fun prompt entry =>
    let tableName := entry.1
    let schema := entry.2
    let prompt := prompt ++ "Table: " ++ tableName ++ "\n" ++ "Columns:\n"
    let prompt := schema.foldl (fun prompt column =>
      let metadata := lookupColumnMetadata columnMetadata tableName column.column_name
      let prompt := prompt ++ "- " ++ column.column_name ++ " (" ++ column.data_type ++ ")"
      let prompt :=
        match metadata with
        | some m =>
          let prompt := prompt ++ ": " ++ m.description
          match m.foreignKey with
          | some fk => prompt ++ " [References " ++ fk.table ++ "." ++ fk.column ++ "]"
          | none => prompt
        | none => prompt
      prompt ++ "\n") prompt
    prompt ++ "\n") prompt
  let prompt := prompt ++ "\nQuery Guidelines:\n" ++ QUERY_GUIDELINES
  if includeErrorContext ≠ "" then
    prompt ++ "\nPrevious Error Context: " ++ includeErrorContext ++ "\n" ++
      "Please revise your approach and try a different query strategy.\n"
  else prompt

/-- The apology returned when retries are exhausted (identical wording in
both variants): the template interpolates `MAX_RETRIES + 1` and the last
error text. -/
def apologyMessage (lastError : String) : String :=
  "I apologize, but I was unable to successfully query the database after " ++
    toString (MAX_RETRIES + 1) ++ " attempts. The last error was: " ++ lastError

/-- The string returned after the `while` loop exits without returning
(identical wording in both variants). -/
def unexpectedErrorMessage : String :=
  "An unexpected error occurred while processing your question."

/-- The string built by the outermost `catch` of `processQuestion`
(identical wording in both variants). -/
def anErrorOccurred (e : String) : String := "An error occurred: " ++ e

/-- Ghost-instrumented state threaded through a Protocol A run: the mutable
`chatHistory`, plus counters of ollama chat calls and database tool calls
and the log of every `messages` list handed to `ollama.chat`. -/
structure AState where
  hist : History
  modelCalls : Nat
  dbCalls : Nat
  sentLog : List (List Turn)
deriving Repr

/-- Oracle for `ollama.chat` (call number, messages) ↦ response content, or
`Except.error` when the call throws. -/
abbrev ModelOracleA := Nat → List Turn → Except String String

/-- Oracle for `executeQuery` (call number, sql) ↦ `content[0].text`, or
`Except.error` for a thrown error / missing text content. -/
abbrev DbOracle := Nat → String → Except String String

/-- The `while (attemptCount <= this.MAX_RETRIES)` loop of
`processQuestion` in `src/index.ts` (Protocol A).  `fuel` is a structural
bound on remaining iterations; since every iteration either returns or
increments `attemptCount`, starting fuel `MAX_RETRIES + 2` is never
exhausted, and the fuel-0 branch returns the same string as normal loop
exit.  An `Except.error` result is an exception escaping the loop (only a
throwing first `ollama.chat`, which no `try` encloses, can cause this);
the second chat call and both `executeQuery` outcomes sit inside the inner
`try`/`catch`. -/
def loopA (modelO : ModelOracleA) (dbO : DbOracle)
    (cache : SchemaCacheT) (meta : ColumnMetaT) (question : String) :
    Nat → Nat → Option String → AState → AState × Except String String
  | 0, _, _, st => (st, .ok unexpectedErrorMessage)
  | fuel + 1, attemptCount, lastError, st =>
    if attemptCount ≤ MAX_RETRIES then
      let messages : List Turn :=
        ⟨"system", buildSystemPrompt cache meta (lastError.getD "")⟩ ::
          (st.hist ++ [⟨"user", question⟩])
      let st :=
        if attemptCount == 0 then
          { st with hist := addToHistory st.hist "user" question }
        else st
      match modelO st.modelCalls messages with
      | .error e =>
        ({ st with modelCalls := st.modelCalls + 1,
                   sentLog := st.sentLog ++ [messages] }, .error e)
      | .ok content =>
        let st := { st with modelCalls := st.modelCalls + 1,
                            sentLog := st.sentLog ++ [messages] }
        match extractSql content with
        | none => (st, .ok content)
        | some captured =>
          let sql := captured.trim
          match dbO st.dbCalls sql with
          | .ok queryResult =>
            let st := { st with dbCalls := st.dbCalls + 1,
                                hist := addToHistory st.hist "assistant" content }
            let interpretationMessages := messages ++
              [⟨"assistant", content⟩,
               ⟨"user", "Here are the results of the SQL query: " ++ queryResult ++
                 "\n\nPlease analyze these results and provide a clear summary."⟩]
            match modelO st.modelCalls interpretationMessages with
            | .error e =>
              let st := { st with modelCalls := st.modelCalls + 1,
                                  sentLog := st.sentLog ++ [interpretationMessages] }
              if attemptCount == MAX_RETRIES then (st, .ok (apologyMessage e))
              else loopA modelO dbO cache meta question fuel (attemptCount + 1) (some e) st
            | .ok finalContent =>
              let st := { st with modelCalls := st.modelCalls + 1,
                                  sentLog := st.sentLog ++ [interpretationMessages],
                                  hist := addToHistory st.hist "assistant" finalContent }
              (st, .ok finalContent)
          | .error e =>
            let st := { st with dbCalls := st.dbCalls + 1 }
            if attemptCount == MAX_RETRIES then (st, .ok (apologyMessage e))
            else loopA modelO dbO cache meta question fuel (attemptCount + 1) (some e) st
    else (st, .ok unexpectedErrorMessage)

/-- Method `processQuestion(question)` of `src/index.ts` (Protocol A): the loop
wrapped in the outermost `try`/`catch`, which converts any escaping
exception into the `An error occurred: ...` string.  The `Except` in the
result type records whether an exception propagates to the caller. -/
def processQuestionA (modelO : ModelOracleA) (dbO : DbOracle)
    (cache : SchemaCacheT) (meta : ColumnMetaT) (question : String)
    (hist : History) : Except String (AState × String) :=
  match loopA modelO dbO cache meta question (MAX_RETRIES + 2) 0 none
      ⟨hist, 0, 0, []⟩ with
  | (st, .ok answer) => .ok (st, answer)
  | (st, .error e) => .ok (st, anErrorOccurred e)

/-- Constant `SYSTEM_PROMPT` of `unnamed/part_001` (template literal, including its
leading and trailing newline). -/
def SYSTEM_PROMPT : String :=
  "\nYou have access to a PostgreSQL database.\nUse your knowledge of SQL to present an SQL query that will answer the user\x27s question.\nThe user will execute the query and share the results with you.\nUse the query results to verify that the query is correct.\nIf there are no query results, your answer is not verfied.\nIf the query results actually answer the question, mark the answer verified,\nand provide a good human-readable answer.\n\nYou can use the results to refine your query, if your previous answer was insufficient.\nAlways include the SQL query in your response.\n\nIf the user tells you that there was an MCP error, analyze the error and respond with a different query.\n"

/-- Constant `USER_PROMPT` of `unnamed/part_001`: the fixed preamble listing the
database tables as a JSON array, ending with `I have a question:`. -/
def USER_PROMPT : String :=
  "\nI have a database with the following tables:\n\n[\n  \x7b\"table_name\": \"action_item_status_history\"\x7d,\n  \x7b\"table_name\": \"application_key\"\x7d,\n  \x7b\"table_name\": \"board\"\x7d,\n  \x7b\"table_name\": \"alembic_version\"\x7d,\n  \x7b\"table_name\": \"archival_measurement\"\x7d,\n  \x7b\"table_name\": \"application_audit\"\x7d,\n  \x7b\"table_name\": \"combined_load\"\x7d,\n  \x7b\"table_name\": \"customer_operating_preferences_staging\"\x7d,\n  \x7b\"table_name\": \"application\"\x7d,\n  \x7b\"table_name\": \"bank_account\"\x7d,\n  \x7b\"table_name\": \"baseline_value\"\x7d,\n  \x7b\"table_name\": \"control_profile\"\x7d,\n  \x7b\"table_name\": \"archival_facility_measurement\"\x7d,\n  \x7b\"table_name\": \"account_manager\"\x7d,\n  \x7b\"table_name\": \"action_item\"\x7d,\n  \x7b\"table_name\": \"board_access_control\"\x7d,\n  \x7b\"table_name\": \"email_facility\"\x7d,\n  \x7b\"table_name\": \"email\"\x7d,\n  \x7b\"table_name\": \"device\"\x7d,\n  \x7b\"table_name\": \"dwolla_customer\"\x7d,\n  \x7b\"table_name\": \"facility_contact_association\"\x7d,\n  \x7b\"table_name\": \"facility_operating_preferences\"\x7d,\n  \x7b\"table_name\": \"facility_operating_preferences_account_default\"\x7d,\n  \x7b\"table_name\": \"facility_operating_preferences_account_default_staging\"\x7d,\n  \x7b\"table_name\": \"facility\"\x7d,\n  \x7b\"table_name\": \"facility_enablement\"\x7d,\n  \x7b\"table_name\": \"facility_operating_preferences_staging\"\x7d,\n  \x7b\"table_name\": \"program\"\x7d,\n  \x7b\"table_name\": \"hubspot_email_user\"\x7d,\n  \x7b\"table_name\": \"meter\"\x7d,\n  \x7b\"table_name\": \"firmware_update\"\x7d,\n  \x7b\"table_name\": \"foobar\"\x7d,\n  \x7b\"table_name\": \"identity_role\"\x7d,\n  \x7b\"table_name\": \"facility_transfers\"\x7d,\n  \x7b\"table_name\": \"organization\"\x7d,\n  \x7b\"table_name\": \"feature_access\"\x7d,\n  \x7b\"table_name\": \"generator\"\x7d,\n  \x7b\"table_name\": \"hubspot_email\"\x7d,\n  \x7b\"table_name\": \"program_facility_association\"\x7d,\n  \x7b\"table_name\": \"historical_program_facility_association\"\x7d,\n  \x7b\"table_name\": \"interval_staging\"\x7d,\n  \x7b\"table_name\": \"line_item_event_association\"\x7d,\n  \x7b\"table_name\": \"line_item\"\x7d,\n  \x7b\"table_name\": \"market_timezone_override\"\x7d,\n  \x7b\"table_name\": \"meter_configuration\"\x7d,\n  \x7b\"table_name\": \"miso_lmr_price_offer_selection\"\x7d,\n  \x7b\"table_name\": \"portfolio\"\x7d,\n  \x7b\"table_name\": \"opportunity\"\x7d,\n  \x7b\"table_name\": \"portfolio_facilities\"\x7d,\n  \x7b\"table_name\": \"portfolio_type\"\x7d,\n  \x7b\"table_name\": \"program_geography_association_temp\"\x7d,\n  \x7b\"table_name\": \"program_tmp_migration\"\x7d,\n  \x7b\"table_name\": \"request_job\"\x7d,\n  \x7b\"table_name\": \"meter_provider_configuration\"\x7d,\n  \x7b\"table_name\": \"meter_provider\"\x7d,\n  \x7b\"table_name\": \"payment_program_association\"\x7d,\n  \x7b\"table_name\": \"portfolio_applications\"\x7d,\n  \x7b\"table_name\": \"portfolio_metadata\"\x7d,\n  \x7b\"table_name\": \"program_zipcode_association\"\x7d,\n  \x7b\"table_name\": \"registration_dispatch_performance\"\x7d,\n  \x7b\"table_name\": \"registration_potential_value\"\x7d,\n  \x7b\"table_name\": \"permission\"\x7d,\n  \x7b\"table_name\": \"role_permissions\"\x7d,\n  \x7b\"table_name\": \"portfolio_users\"\x7d,\n  \x7b\"table_name\": \"settlement_payment\"\x7d,\n  \x7b\"table_name\": \"ses_email_user\"\x7d,\n  \x7b\"table_name\": \"settlement_payment_transition_reason\"\x7d,\n  \x7b\"table_name\": \"ses_email\"\x7d,\n  \x7b\"table_name\": \"user_alert_configuration\"\x7d,\n  \x7b\"table_name\": \"user_alert_notification\"\x7d,\n  \x7b\"table_name\": \"temp_portfolio\"\x7d,\n  \x7b\"table_name\": \"scheduled_event\"\x7d,\n  \x7b\"table_name\": \"settlement_baseline_value\"\x7d,\n  \x7b\"table_name\": \"user_audit_impl\"\x7d,\n  \x7b\"table_name\": \"user\"\x7d,\n  \x7b\"table_name\": \"settlement_facility_load\"\x7d,\n  \x7b\"table_name\": \"user_activation_audit\"\x7d,\n  \x7b\"table_name\": \"user_query\"\x7d,\n  \x7b\"table_name\": \"voltus_opportunity_product\"\x7d,\n  \x7b\"table_name\": \"vcrm_group_registration\"\x7d,\n  \x7b\"table_name\": \"vendor_payment\"\x7d,\n  \x7b\"table_name\": \"voltlet_configuration\"\x7d,\n  \x7b\"table_name\": \"event_facility_association\"\x7d,\n  \x7b\"table_name\": \"event_acknowledgment\"\x7d,\n  \x7b\"table_name\": \"action_item_attempt\"\x7d,\n  \x7b\"table_name\": \"utility_account\"\x7d,\n  \x7b\"table_name\": \"role\"\x7d,\n  \x7b\"table_name\": \"line_item_transition_log\"\x7d,\n  \x7b\"table_name\": \"openadr_settings\"\x7d,\n  \x7b\"table_name\": \"settlement_payment_transition_log\"\x7d\n]\n\nI have a question:\n\n"

/-- Source `class JsonSqlModelResponse implements SqlModelResponse`. -/
structure JsonSqlModelResponse where
  sqlQuery : String
  isVerified : Bool
  answerSummary : String
deriving DecidableEq, Repr

/-- Method `getFormattedAnswer()` of `JsonSqlModelResponse`: the template literal
with its 4-space indentation, plus the unverified suffix when
`isVerified` is false. -/
def getFormattedAnswer (r : JsonSqlModelResponse) : String :=
  let formattedAnswer :=
    r.answerSummary ++
      ".\n\n    This was obtained using the following query:\n\n    ```sql\n    " ++
      r.sqlQuery ++ "\n    ```\n    "
  if r.isVerified then formattedAnswer
  else formattedAnswer ++ " (Answer is not verified.)"

/-- One reply of the Protocol B model oracle: the raw response content
(`response.message.content`) together with the outcome of
`SqlJsonContent.parse(JSON.parse(content))`.  `JSON.parse` and the zod
schema check are platform builtins absent from the repository sources, so
their verdict on the raw text is supplied by the oracle; `.error` carries
the stringified parse error. -/
structure ModelJsonReply where
  raw : String
  parsed : Except String JsonSqlModelResponse

/-- Oracle for `ollama.chat` in Protocol B (call number, messages) ↦ reply,
or `Except.error` when the chat call itself throws. -/
abbrev ModelOracleB := Nat → List Turn → Except String ModelJsonReply

/-- Ghost-instrumented state of a Protocol B run. -/
structure BState where
  hist : History
  modelCalls : Nat
  dbCalls : Nat

/-- The message thrown by `queryModelJson` when the response fails
`JSON.parse` or the zod schema. -/
def parseFailureMessage (raw err : String) : String :=
  "Could not extract SQL from this response: " ++ raw ++ " because of error: " ++ err

/-- Method `queryModelJson(messages)` of `unnamed/part_001`: call `ollama.chat`
(with the JSON format constraint), append the raw content to history as an
assistant turn, then parse; a parse failure throws the
`Could not extract SQL ...` error.  `Except.error` is a thrown exception. -/
def queryModelJson (modelO : ModelOracleB) (messages : List Turn) (st : BState) :
    BState × Except String JsonSqlModelResponse :=
  match modelO st.modelCalls messages with
  | .error e => ({ st with modelCalls := st.modelCalls + 1 }, .error e)
  | .ok reply =>
    let st := { st with modelCalls := st.modelCalls + 1,
                        hist := addToHistory st.hist "assistant" reply.raw }
    match reply.parsed with
    | .ok parsedData => (st, .ok parsedData)
    | .error err => (st, .error (parseFailureMessage reply.raw err))

/-- The `while (attemptCount <= this.MAX_RETRIES)` loop of
`processQuestion` in `unnamed/part_001` (Protocol B).  The `try`/`catch`
around `queryModelJson` turns a throw into an immediate return of the
error message (after appending it to history as a user turn); the
`try`/`catch` around `executeQuery` records the error and returns the
apology when retries are exhausted.  The unreachable
`if (!sqlModelResponse) continue` guard (the preceding `try` either
returns or leaves a response object) is omitted.  `fuel` is a structural
bound as in `loopA`. -/
def loopB (modelO : ModelOracleB) (dbO : DbOracle) (question : String) :
    Nat → Nat → BState → BState × Except String String
  | 0, _, st => (st, .ok unexpectedErrorMessage)
  | fuel + 1, attemptCount, st =>
    if attemptCount ≤ MAX_RETRIES then
      let messages : List Turn :=
        ⟨"system", SYSTEM_PROMPT⟩ :: ⟨"user", USER_PROMPT ++ question⟩ :: st.hist
      match queryModelJson modelO messages st with
      | (st, .error errorMessage) =>
        ({ st with hist := addToHistory st.hist "user" errorMessage }, .ok errorMessage)
      | (st, .ok sqlModelResponse) =>
        if sqlModelResponse.isVerified then
          (st, .ok (getFormattedAnswer sqlModelResponse))
        else
          match dbO st.dbCalls sqlModelResponse.sqlQuery with
          | .ok queryResult =>
            let st := { st with dbCalls := st.dbCalls + 1,
                                hist := addToHistory st.hist "user"
                                  ("Here are the results of the SQL query: " ++ queryResult) }
            loopB modelO dbO question fuel (attemptCount + 1) st
          | .error errorMessage =>
            let st := { st with dbCalls := st.dbCalls + 1,
                                hist := addToHistory st.hist "user" errorMessage }
            if attemptCount == MAX_RETRIES then (st, .ok (apologyMessage errorMessage))
            else loopB modelO dbO question fuel (attemptCount + 1) st
    else (st, .ok unexpectedErrorMessage)

/-- Method `processQuestion(question)` of `unnamed/part_001` (Protocol B): the
loop wrapped in the outermost `try`/`catch`. -/
def processQuestionB (modelO : ModelOracleB) (dbO : DbOracle) (question : String)
    (hist : History) : Except String (BState × String) :=
  match loopB modelO dbO question (MAX_RETRIES + 2) 0 ⟨hist, 0, 0⟩ with
  | (st, .ok answer) => .ok (st, answer)
  | (st, .error e) => .ok (st, anErrorOccurred e)

/-! Helper lemmas about history truncation. -/

/-- Truncation only ever removes entries from the front: the result is a
suffix of the input. -/
theorem truncateHistory_suffix : ∀ l : History, truncateHistory l <:+ l
  | [] => List.suffix_refl _
  | t :: rest => by
    rw [truncateHistory]
    split
    · exact (truncateHistory_suffix rest).trans (List.suffix_cons t rest)
    · exact List.suffix_refl _

/-- The length after truncation is the input length capped at the bound. -/
theorem truncateHistory_length : ∀ l : History,
    (truncateHistory l).length = min l.length MAX_HISTORY_LENGTH
  | [] => by simp [truncateHistory, MAX_HISTORY_LENGTH]
  | t :: rest => by
    rw [truncateHistory]
    split
    · rename_i hgt
      rw [truncateHistory_length rest]
      simp only [List.length_cons] at hgt ⊢
      omega
    · rename_i hle
      simp only [List.length_cons, not_lt] at hle ⊢
      omega

/-- A list already within the bound is left untouched by truncation. -/
theorem truncateHistory_of_le (l : History) (hle : l.length ≤ MAX_HISTORY_LENGTH) :
    truncateHistory l = l := by
  cases l with
  | nil => rfl
  | cons t rest =>
    rw [truncateHistory, if_neg]
    omega

/-- After any single append the history is within the bound. -/
theorem addToHistory_length_le (h : History) (r c : String) :
    (addToHistory h r c).length ≤ MAX_HISTORY_LENGTH := by
  rw [addToHistory, truncateHistory_length]
  omega

/-- A single append only evicts from the front of the extended history. -/
theorem addToHistory_suffix (h : History) (r c : String) :
    addToHistory h r c <:+ h ++ [⟨r, c⟩] :=
  truncateHistory_suffix _

/-- Folding appends over a suffix-related starting state stays a suffix of
the ideal unbounded history. -/
theorem foldl_addToHistory_suffix : ∀ (entries : List Turn) (h pre : History),
    h <:+ pre →
    entries.foldl (fun acc t => addToHistory acc t.role t.content) h <:+ pre ++ entries
  | [], h, pre, hsuf => by simpa using hsuf
  | t :: ts, h, pre, hsuf => by
    have hstep : addToHistory h t.role t.content <:+ pre ++ [t] := by
      rcases hsuf with ⟨u, rfl⟩
      rcases addToHistory_suffix h t.role t.content with ⟨v, hv⟩
      refine ⟨u ++ v, ?_⟩
      rw [List.append_assoc u v, hv]
      simp [List.append_assoc]
    have := foldl_addToHistory_suffix ts (addToHistory h t.role t.content) (pre ++ [t]) hstep
    simpa [List.append_assoc] using this

/-- Folding appends preserves the length bound. -/
theorem foldl_addToHistory_length : ∀ (entries : List Turn) (h : History),
    h.length ≤ MAX_HISTORY_LENGTH →
    (entries.foldl (fun acc t => addToHistory acc t.role t.content) h).length
      ≤ MAX_HISTORY_LENGTH
  | [], _, hle => hle
  | t :: ts, h, _ =>
    foldl_addToHistory_length ts _ (addToHistory_length_le h t.role t.content)

/-! The claims. -/

/-- Claim C1: with a model that always returns a response whose SQL is
executed (Protocol A: a response with an extractable fenced block;
Protocol B: well-formed JSON with `isVerified: false`) and a database call
that always fails with the same error, `processQuestion` performs exactly
`MAX_RETRIES + 1` attempts — one model call plus one failed execution
each — and returns the apology message embedding the last error text, in
both variants. -/
theorem claim1_retries_exhausted_apology
    (modelOA : ModelOracleA) (dbOA : DbOracle)
    (cache : SchemaCacheT) (meta : ColumnMetaT)
    (questionA : String) (histA : History) (content sqlGroup eA : String)
    (hmA : ∀ n ms, modelOA n ms = .ok content)
    (hxA : extractSql content = some sqlGroup)
    (hdbA : ∀ n s, dbOA n s = .error eA)
    (modelOB : ModelOracleB) (dbOB : DbOracle)
    (questionB : String) (histB : History) (raw sq sum eB : String)
    (hmB : ∀ n ms, modelOB n ms = .ok ⟨raw, .ok ⟨sq, false, sum⟩⟩)
    (hdbB : ∀ n s, dbOB n s = .error eB) :
    (processQuestionA modelOA dbOA cache meta questionA histA).map
        (fun p => (p.1.modelCalls, p.1.dbCalls, p.2)) =
      .ok (MAX_RETRIES + 1, MAX_RETRIES + 1, apologyMessage eA) ∧
    (processQuestionB modelOB dbOB questionB histB).map
        (fun p => (p.1.modelCalls, p.1.dbCalls, p.2)) =
      .ok (MAX_RETRIES + 1, MAX_RETRIES + 1, apologyMessage eB) := by
  constructor
  · simp [processQuestionA, loopA, hmA, hxA, hdbA, MAX_RETRIES, Except.map]
  · simp [processQuestionB, loopB, queryModelJson, hmB, hdbB, MAX_RETRIES, Except.map]

/-- Witness for C1 at a concrete model response, question and error. -/
theorem claim1_retries_exhausted_apology_witness :
    (processQuestionA (fun _ _ => .ok "```sql\nSELECT 1\n```")
        (fun _ _ => .error "relation does not exist") [] [] "q" []).map
        (fun p => (p.1.modelCalls, p.1.dbCalls, p.2)) =
      .ok (MAX_RETRIES + 1, MAX_RETRIES + 1,
        apologyMessage "relation does not exist") ∧
    (processQuestionB (fun _ _ => .ok ⟨"raw", .ok ⟨"SELECT 1", false, "sum"⟩⟩)
        (fun _ _ => .error "relation does not exist") "q" []).map
        (fun p => (p.1.modelCalls, p.1.dbCalls, p.2)) =
      .ok (MAX_RETRIES + 1, MAX_RETRIES + 1,
        apologyMessage "relation does not exist") :=
  claim1_retries_exhausted_apology _ _ [] [] "q" [] "```sql\nSELECT 1\n```"
    "SELECT 1" "relation does not exist" (fun _ _ => rfl) rfl (fun _ _ => rfl)
    _ _ "q" [] "raw" "SELECT 1" "sum" "relation does not exist"
    (fun _ _ => rfl) (fun _ _ => rfl)

/-- Claim C2: in Protocol A, when the first model response contains no
fenced ```sql block, `processQuestion` returns the prose unchanged after
one model call and zero database calls — a terminal success. -/
theorem claim2_no_sql_block_returns_prose
    (modelO : ModelOracleA) (dbO : DbOracle)
    (cache : SchemaCacheT) (meta : ColumnMetaT)
    (question : String) (hist : History) (content : String)
    (hm : ∀ ms, modelO 0 ms = .ok content)
    (hx : extractSql content = none) :
    (processQuestionA modelO dbO cache meta question hist).map
        (fun p => (p.1.modelCalls, p.1.dbCalls, p.2)) =
      .ok (1, 0, content) := by
  simp [processQuestionA, loopA, hm, hx, MAX_RETRIES, Except.map]

/-- Witness for C2 at a concrete prose-only response. -/
theorem claim2_no_sql_block_returns_prose_witness :
    (processQuestionA (fun _ _ => .ok "There are five artists in the table.")
        (fun _ _ => .error "unused") [] [] "how many artists?" []).map
        (fun p => (p.1.modelCalls, p.1.dbCalls, p.2)) =
      .ok (1, 0, "There are five artists in the table.") :=
  claim2_no_sql_block_returns_prose _ _ [] [] "how many artists?" []
    "There are five artists in the table." (fun _ => rfl) rfl

/-- Claim C3: in Protocol B, a first response that is valid JSON with
`isVerified: true` makes `processQuestion` return after exactly one model
call and zero database calls, with the formatted answer (summary plus the
SQL used); execution happens only when `isVerified` is false. -/
theorem claim3_verified_first_response
    (modelO : ModelOracleB) (dbO : DbOracle)
    (question : String) (hist : History) (raw sq sum : String)
    (hm : ∀ ms, modelO 0 ms = .ok ⟨raw, .ok ⟨sq, true, sum⟩⟩) :
    (processQuestionB modelO dbO question hist).map
        (fun p => (p.1.hist, p.1.modelCalls, p.1.dbCalls, p.2)) =
      .ok (addToHistory hist "assistant" raw, 1, 0,
        getFormattedAnswer ⟨sq, true, sum⟩) := by
  simp [processQuestionB, loopB, queryModelJson, hm, MAX_RETRIES, Except.map]

/-- Witness for C3 at the concrete response of the spec. -/
theorem claim3_verified_first_response_witness :
    (processQuestionB (fun _ _ => .ok ⟨"raw", .ok ⟨"SELECT 1", true, "ok"⟩⟩)
        (fun _ _ => .ok "unused") "q" []).map
        (fun p => (p.1.hist, p.1.modelCalls, p.1.dbCalls, p.2)) =
      .ok (addToHistory [] "assistant" "raw", 1, 0,
        getFormattedAnswer ⟨"SELECT 1", true, "ok"⟩) :=
  claim3_verified_first_response _ _ "q" [] "raw" "SELECT 1" "ok" (fun _ => rfl)

/-- Claim C4: in Protocol B, a first response that fails JSON or schema
validation makes `processQuestion` return immediately with the parse-error
message, after one model call, zero database calls, and no re-sending of
the question (no retry slot consumed); the raw response and the error
message are appended to history. -/
theorem claim4_malformed_json_immediate_return
    (modelO : ModelOracleB) (dbO : DbOracle)
    (question : String) (hist : History) (raw perr : String)
    (hm : ∀ ms, modelO 0 ms = .ok ⟨raw, .error perr⟩) :
    (processQuestionB modelO dbO question hist).map
        (fun p => (p.1.hist, p.1.modelCalls, p.1.dbCalls, p.2)) =
      .ok (addToHistory (addToHistory hist "assistant" raw) "user"
            (parseFailureMessage raw perr),
           1, 0, parseFailureMessage raw perr) := by
  simp [processQuestionB, loopB, queryModelJson, hm, MAX_RETRIES, Except.map]

/-- Witness for C4 at a concrete malformed response. -/
theorem claim4_malformed_json_immediate_return_witness :
    (processQuestionB (fun _ _ => .ok ⟨"not json", .error "ZodError"⟩)
        (fun _ _ => .ok "unused") "q" []).map
        (fun p => (p.1.hist, p.1.modelCalls, p.1.dbCalls, p.2)) =
      .ok (addToHistory (addToHistory [] "assistant" "not json") "user"
            (parseFailureMessage "not json" "ZodError"),
           1, 0, parseFailureMessage "not json" "ZodError") :=
  claim4_malformed_json_immediate_return _ _ "q" [] "not json" "ZodError"
    (fun _ => rfl)

/-- Claim C5: after any sequence of appends starting from the empty
history, the history length never exceeds `MAX_HISTORY_LENGTH` (which is
20), and the resulting history is a suffix of the full append sequence:
everything evicted came from the oldest end, never a newer entry. -/
theorem claim5_history_bounded_oldest_evicted (entries : List Turn) :
    MAX_HISTORY_LENGTH = 20 ∧
    (entries.foldl (fun acc t => addToHistory acc t.role t.content) []).length
        ≤ MAX_HISTORY_LENGTH ∧
    entries.foldl (fun acc t => addToHistory acc t.role t.content) [] <:+ entries := by
  refine ⟨rfl, ?_, ?_⟩
  · exact foldl_addToHistory_length entries [] (by simp [MAX_HISTORY_LENGTH])
  · simpa using foldl_addToHistory_suffix entries [] [] (List.suffix_refl _)

/-- A history of exactly 20 entries made of 10 aligned user/assistant
pairs, used to exhibit the truncation discipline. -/
def pairedHistory20 : History :=
  ((List.range 10).map (fun i =>
    [⟨"user", "u" ++ toString i⟩, ⟨"assistant", "a" ++ toString i⟩])).flatten

/-- Counterexample to C6: on a full history of 10 aligned user/assistant
pairs, appending one user turn evicts exactly ONE entry — the length stays
at the maximum and the orphaned assistant reply `a0` becomes the head —
whereas pair-removal would have evicted the `u0`/`a0` pair. The code never
removes in pairs. -/
theorem claim6_pair_removal_counterexample :
    (addToHistory pairedHistory20 "user" "q").length = MAX_HISTORY_LENGTH ∧
    (addToHistory pairedHistory20 "user" "q").head? = some ⟨"assistant", "a0"⟩ ∧
    addToHistory pairedHistory20 "user" "q" =
      pairedHistory20.tail ++ [⟨"user", "q"⟩] :=
  ⟨by decide, by decide, by decide⟩

/-- Claim C6 amended: when an append makes the history exceed its maximum
length, truncation removes exactly one entry, the single oldest one
(`shift()` once per overflow); entries are never removed in pairs, so a
user turn can be orphaned from its paired assistant turn. -/
theorem claim6_single_entry_eviction (h : History) (r c : String)
    (hle : h.length ≤ MAX_HISTORY_LENGTH) :
    addToHistory h r c =
      if h.length < MAX_HISTORY_LENGTH then h ++ [⟨r, c⟩]
      else h.tail ++ [⟨r, c⟩] := by
  by_cases hlt : h.length < MAX_HISTORY_LENGTH
  · rw [if_pos hlt, addToHistory]
    apply truncateHistory_of_le
    simp only [List.length_append, List.length_cons, List.length_nil]
    omega
  · rw [if_neg hlt]
    have heq : h.length = MAX_HISTORY_LENGTH := by omega
    cases h with
    | nil => simp [MAX_HISTORY_LENGTH] at heq
    | cons t rest =>
      rw [addToHistory, List.cons_append, truncateHistory, if_pos, truncateHistory_of_le]
      · simp
      · simp only [List.length_append, List.length_cons, List.length_nil] at heq ⊢
        omega
      · simp only [List.length_cons, List.length_append, List.length_nil] at heq ⊢
        omega

/-- Witness for the amended C6 at the concrete full history. -/
theorem claim6_single_entry_eviction_witness :
    pairedHistory20.length ≤ MAX_HISTORY_LENGTH ∧
    addToHistory pairedHistory20 "user" "q" =
      (if pairedHistory20.length < MAX_HISTORY_LENGTH
       then pairedHistory20 ++ [⟨"user", "q"⟩]
       else pairedHistory20.tail ++ [⟨"user", "q"⟩]) :=
  ⟨by decide, claim6_single_entry_eviction pairedHistory20 "user" "q" (by decide)⟩

/-- Claim C7: for every question, every initial history, and every
behaviour of the model and database collaborators — including thrown
exceptions — `processQuestion` never propagates an exception to its
caller: both variants always produce `Except.ok`, the outermost catch
converting any escaping failure into a returned error string. -/
theorem claim7_never_propagates_exception :
    (∀ (modelO : ModelOracleA) (dbO : DbOracle) (cache : SchemaCacheT)
        (meta : ColumnMetaT) (question : String) (hist : History),
        ∃ out, processQuestionA modelO dbO cache meta question hist = .ok out) ∧
    (∀ (modelO : ModelOracleB) (dbO : DbOracle) (question : String) (hist : History),
        ∃ out, processQuestionB modelO dbO question hist = .ok out) := by
  constructor
  · intro modelO dbO cache meta question hist
    unfold processQuestionA
    rcases hres : loopA modelO dbO cache meta question (MAX_RETRIES + 2) 0 none
        ⟨hist, 0, 0, []⟩ with ⟨st, r⟩
    cases r <;> simp
  · intro modelO dbO question hist
    unfold processQuestionB
    rcases hres : loopB modelO dbO question (MAX_RETRIES + 2) 0 ⟨hist, 0, 0⟩ with ⟨st, r⟩
    cases r <;> simp

/-- Claim C8: `buildSystemPrompt` is a pure deterministic function of the
schema cache contents, the column metadata, and the error-context
argument: equal inputs produce identical output text. -/
theorem claim8_buildSystemPrompt_deterministic
    (c₁ c₂ : SchemaCacheT) (m₁ m₂ : ColumnMetaT) (e₁ e₂ : String)
    (hc : c₁ = c₂) (hm : m₁ = m₂) (he : e₁ = e₂) :
    buildSystemPrompt c₁ m₁ e₁ = buildSystemPrompt c₂ m₂ e₂ := by
  rw [hc, hm, he]

/-- Witness for C8 at a concrete cache with one table, a foreign-key
annotated column, and a non-empty error context. -/
theorem claim8_buildSystemPrompt_deterministic_witness :
    buildSystemPrompt [("album", [⟨"artist_id", "integer"⟩])]
        [("album", [("artist_id",
          ⟨"Foreign key referencing artist.id", [], some ⟨"artist", "id"⟩⟩)])]
        "syntax error" =
      buildSystemPrompt [("album", [⟨"artist_id", "integer"⟩])]
        [("album", [("artist_id",
          ⟨"Foreign key referencing artist.id", [], some ⟨"artist", "id"⟩⟩)])]
        "syntax error" :=
  claim8_buildSystemPrompt_deterministic _ _ _ _ _ _ rfl rfl rfl

/-- Claim C9: in Protocol B the loop terminates within `MAX_RETRIES + 1`
iterations even when every execution succeeds: a successful execution with
`isVerified: false` also consumes an attempt, and after `MAX_RETRIES + 1`
valid-but-unverified responses with successful executions the function
returns the generic fallback string, not an apology or an answer. -/
theorem claim9_unverified_success_terminates
    (modelO : ModelOracleB) (dbO : DbOracle)
    (question : String) (hist : History) (raw sq sum res : String)
    (hm : ∀ n ms, modelO n ms = .ok ⟨raw, .ok ⟨sq, false, sum⟩⟩)
    (hdb : ∀ n s, dbO n s = .ok res) :
    (processQuestionB modelO dbO question hist).map
        (fun p => (p.1.modelCalls, p.1.dbCalls, p.2)) =
      .ok (MAX_RETRIES + 1, MAX_RETRIES + 1, unexpectedErrorMessage) := by
  simp [processQuestionB, loopB, queryModelJson, hm, hdb, MAX_RETRIES, Except.map]

/-- Witness for C9 at a concrete always-unverified response with
successful executions. -/
theorem claim9_unverified_success_terminates_witness :
    (processQuestionB (fun _ _ => .ok ⟨"raw", .ok ⟨"SELECT 1", false, "sum"⟩⟩)
        (fun _ _ => .ok "[]") "q" []).map
        (fun p => (p.1.modelCalls, p.1.dbCalls, p.2)) =
      .ok (MAX_RETRIES + 1, MAX_RETRIES + 1, unexpectedErrorMessage) :=
  claim9_unverified_success_terminates _ _ "q" [] "raw" "SELECT 1" "sum" "[]"
    (fun _ _ => rfl) (fun _ _ => rfl)

/-- Claim C10: in Protocol A, starting from an empty history, the question
is appended to history only on attempt 0 (built into the message list
before the append), so on every retry attempt the message list sent to the
model contains the question twice: once inside the included chat history
and once again as the final user turn. The log of sent message lists is
exactly one initial list with a single question turn followed by
`MAX_RETRIES` retry lists each ending in two copies of the question
turn. -/
theorem claim10_retry_duplicates_question
    (modelO : ModelOracleA) (dbO : DbOracle)
    (cache : SchemaCacheT) (meta : ColumnMetaT)
    (question content sqlGroup e : String)
    (hm : ∀ n ms, modelO n ms = .ok content)
    (hx : extractSql content = some sqlGroup)
    (hdb : ∀ n s, dbO n s = .error e) :
    (processQuestionA modelO dbO cache meta question []).map (fun p => p.1.sentLog) =
      .ok ([⟨"system", buildSystemPrompt cache meta ""⟩, ⟨"user", question⟩] ::
        List.replicate MAX_RETRIES
          [⟨"system", buildSystemPrompt cache meta e⟩,
           ⟨"user", question⟩, ⟨"user", question⟩]) := by
  simp [processQuestionA, loopA, hm, hx, hdb, MAX_RETRIES, MAX_HISTORY_LENGTH,
    Except.map, addToHistory, truncateHistory, List.replicate]

/-- Witness for C10 at a concrete looping run. -/
theorem claim10_retry_duplicates_question_witness :
    (processQuestionA (fun _ _ => .ok "```sql\nSELECT 1\n```")
        (fun _ _ => .error "boom") [] [] "how many?" []).map (fun p => p.1.sentLog) =
      .ok ([⟨"system", buildSystemPrompt [] [] ""⟩, ⟨"user", "how many?"⟩] ::
        List.replicate MAX_RETRIES
          [⟨"system", buildSystemPrompt [] [] "boom"⟩,
           ⟨"user", "how many?"⟩, ⟨"user", "how many?"⟩]) :=
  claim10_retry_duplicates_question _ _ [] [] "how many?" "```sql\nSELECT 1\n```"
    "SELECT 1" "boom" (fun _ _ => rfl) rfl (fun _ _ => rfl)
